import Mathlib

/-!
Verification development for the ConsultOnCall socket server core
(rooms.js, events.js, socket.js), shallowly embedded in Lean.

JavaScript Maps are modelled as association lists with update-in-place
semantics; Date.now() values are passed in explicitly as a Nat argument
named now; socket.io emissions are collected into an explicit list; the
authoritative backend is an oracle of pure functions.
-/

namespace ConsultOnCall

/-- Caller display metadata fetched from the backend user profile endpoint. -/
structure CallerInfo where
  name : String
  avatar : Option String
deriving Repr, DecidableEq

/-- One record of RoomManager.activeCalls, as built by createCall and
mutated by the other RoomManager operations. Fields that are null or
undefined until first assigned in the source are Option-valued here. -/
structure Call where
  callId : String
  userId : String
  expertId : String
  userSocketId : String
  expertSocketId : String
  callerInfo : Option CallerInfo
  status : String
  createdAt : Nat
  startTime : Option Nat
  lastUserHeartbeat : Option Nat
  lastExpertHeartbeat : Option Nat
deriving Repr, DecidableEq

/-- Value stored in RoomManager.socketToUser. -/
structure SocketUser where
  userId : String
  userType : String
deriving Repr, DecidableEq

/-- Lookup in an association list, modelling JavaScript Map.get. -/
def mget {β : Type} (m : List (String × β)) (k : String) : Option β :=
  match m with
  | [] => none
  | (k1, v) :: rest => if k1 == k then some v else mget rest k

/-- Insert or overwrite, modelling JavaScript Map.set. -/
def mset {β : Type} (m : List (String × β)) (k : String) (v : β) :
    List (String × β) :=
  match m with
  | [] => [(k, v)]
  | (k1, v1) :: rest => if k1 == k then (k, v) :: rest else (k1, v1) :: mset rest k v

/-- Deletion, modelling JavaScript Map.delete. -/
def mdel {β : Type} (m : List (String × β)) (k : String) : List (String × β) :=
  m.filter (fun p => p.1 != k)

/-- JavaScript truthiness of a time value: null, undefined and 0 are falsy. -/
def jsTruthyTime (t : Option Nat) : Bool :=
  match t with
  | none => false
  | some n => n != 0

/-- JavaScript truthiness of an optional string: undefined and the empty
string are falsy. -/
def jsTruthyStr (s : Option String) : Bool :=
  match s with
  | none => false
  | some v => v != ""

/-- JavaScript a or-else b on optional strings (the || operator). -/
def jsStrOr (a b : Option String) : Option String :=
  if jsTruthyStr a then a else b

/-- JavaScript a or-else b on time values (the || operator), as used in
the liveness watchdog fallback lastHeartbeat || startTime. -/
def jsFallbackTime (a b : Option Nat) : Option Nat :=
  if jsTruthyTime a then a else b

/-- In-memory state of the RoomManager singleton (rooms.js). -/
structure RoomManager where
  userSockets : List (String × String)
  expertSockets : List (String × String)
  socketToUser : List (String × SocketUser)
  activeCalls : List (String × Call)
  onlineExperts : List String
deriving Repr, DecidableEq

/-- Set.add semantics on the onlineExperts list. -/
def setAdd (l : List String) (x : String) : List String :=
  if l.contains x then l else l ++ [x]

/-- RoomManager.createCall: builds a fresh record with status ringing and
createdAt = now, stores it under callId (Map.set, so an existing entry is
overwritten), and returns it. -/
def RoomManager.createCall (rm : RoomManager)
    (callId userId expertId userSocketId expertSocketId : String)
    (callerInfo : Option CallerInfo) (now : Nat) : RoomManager × Call :=
  let call : Call :=
    { callId := callId, userId := userId, expertId := expertId,
      userSocketId := userSocketId, expertSocketId := expertSocketId,
      callerInfo := callerInfo, status := "ringing", createdAt := now,
      startTime := none, lastUserHeartbeat := none, lastExpertHeartbeat := none }
  ({ rm with activeCalls := mset rm.activeCalls callId call }, call)

/-- RoomManager.getCall. -/
def RoomManager.getCall (rm : RoomManager) (callId : String) : Option Call :=
  mget rm.activeCalls callId

/-- RoomManager.updateCallStatus: if the call exists, sets status
unconditionally and sets startTime = now on entering connected when
startTime is still unset (JavaScript tests the negated truthiness of
startTime); returns the updated record, or none if the call is absent. -/
def RoomManager.updateCallStatus (rm : RoomManager) (callId status : String)
    (now : Nat) : RoomManager × Option Call :=
  match mget rm.activeCalls callId with
  | none => (rm, none)
  | some call =>
      let call1 := { call with status := status }
      let call2 := if status == "connected" && !jsTruthyTime call1.startTime
                   then { call1 with startTime := some now } else call1
      ({ rm with activeCalls := mset rm.activeCalls callId call2 }, some call2)

/-- RoomManager.updateHeartbeat. -/
def RoomManager.updateHeartbeat (rm : RoomManager) (callId userId userType : String)
    (now : Nat) : RoomManager :=
  match mget rm.activeCalls callId with
  | none => rm
  | some call =>
      if userType == "user" || call.userId == userId then
        { rm with activeCalls :=
            (mset rm.activeCalls callId { call with lastUserHeartbeat := some now }) }
      else if userType == "expert" || call.expertId == userId then
        { rm with activeCalls :=
            (mset rm.activeCalls callId { call with lastExpertHeartbeat := some now }) }
      else rm

/-- RoomManager.endCall: removes and returns the record if present. -/
def RoomManager.endCall (rm : RoomManager) (callId : String) :
    RoomManager × Option Call :=
  match mget rm.activeCalls callId with
  | none => (rm, none)
  | some call => ({ rm with activeCalls := mdel rm.activeCalls callId }, some call)

/-- RoomManager.getCallDuration: floor of (now - startTime) in seconds when
the call exists and startTime is truthy, else 0. -/
def RoomManager.getCallDuration (rm : RoomManager) (callId : String) (now : Nat) : Nat :=
  match mget rm.activeCalls callId with
  | some call =>
      if jsTruthyTime call.startTime then (now - call.startTime.getD 0) / 1000 else 0
  | none => 0

/-- RoomManager.isExpertBusy: true iff some active call of the expert has
status ringing or connected. -/
def RoomManager.isExpertBusy (rm : RoomManager) (expertId : String) : Bool :=
  rm.activeCalls.any (fun p =>
    p.2.expertId == expertId && (p.2.status == "ringing" || p.2.status == "connected"))

/-- RoomManager.isExpertOnline. -/
def RoomManager.isExpertOnline (rm : RoomManager) (expertId : String) : Bool :=
  rm.onlineExperts.contains expertId && (mget rm.expertSockets expertId).isSome

/-- RoomManager.getExpertSocket. -/
def RoomManager.getExpertSocket (rm : RoomManager) (expertId : String) : Option String :=
  mget rm.expertSockets expertId

/-- RoomManager.removeSocket: if the socket is registered, removes the
role-appropriate identity binding and the socketToUser binding, then
deletes every active call referencing the socket on either side; returns
the registration data, or none (doing nothing) if unregistered. -/
def RoomManager.removeSocket (rm : RoomManager) (socketId : String) :
    RoomManager × Option SocketUser :=
  match mget rm.socketToUser socketId with
  | none => (rm, none)
  | some userData =>
      let rm1 :=
        if userData.userType == "user" then
          { rm with userSockets := mdel rm.userSockets userData.userId }
        else if userData.userType == "expert" then
          { rm with expertSockets := mdel rm.expertSockets userData.userId }
        else rm
      let rm2 := { rm1 with socketToUser := mdel rm1.socketToUser socketId }
      let rm3 := { rm2 with activeCalls := (rm2.activeCalls.filter
          (fun p => !(p.2.userSocketId == socketId || p.2.expertSocketId == socketId))) }
      (rm3, some userData)

/-- Expert status as returned by the backend status endpoint. -/
structure ExpertStatus where
  isOnline : Bool
  isBusy : Bool
deriving Repr, DecidableEq

/-- Oracle for the authoritative backend HTTP API. A none result of
expertStatus or userProfile models a failed request (axios throw); the
Bool results model whether the respective PUT or POST succeeds.
ringingErrMsg models the optional error message carried by a failed
ringing update response. -/
structure Backend where
  expertStatus : String → Option ExpertStatus
  userProfile : String → Option CallerInfo
  ringingOk : String → Bool
  ringingErrMsg : String → Option String
  forceEndOk : String → Bool

/-- One socket.io emission. Targeted emissions (io.to(x).emit) carry the
target socket id or room name; expert status and busy broadcasts use
io.emit to all clients and carry no target. -/
inductive Emit where
  | incomingCall (target callId userId expertId : String) (caller : Option CallerInfo)
  | busyChanged (expertId : String) (isBusy : Bool)
  | statusChanged (expertId : String) (isOnline : Bool)
  | callAccepted (target callId userId expertId : String) (callerInfo : Option CallerInfo)
  | callRejected (target callId reason : String)
  | callTimeout (target callId : String)
  | callConnectedMsg (target callId : String)
  | callEnded (target callId : String) (duration : Nat)
      (reason : Option String) (disconnectType : Option String)
deriving Repr, DecidableEq

/-- Callback result of handleCallRequest. -/
inductive ReqResult where
  | success (callId : String) (note : Option String)
  | failure (error : String)
deriving Repr, DecidableEq

/-- Callback result of handlers that acknowledge with only success or an
error message. -/
inductive AckResult where
  | ok
  | err (error : String)
deriving Repr, DecidableEq

/-- Callback result of handleCallEnd. -/
inductive EndResult where
  | success (duration : Nat)
  | failure (error : String)
deriving Repr, DecidableEq

/-- State owned by the EventHandler instance: the RoomManager plus the
callTimeouts map. The source stores Timeout objects as map values; here
the value records the delay in milliseconds the timer was armed with. -/
structure EventHandler where
  rooms : RoomManager
  callTimeouts : List (String × Nat)
deriving Repr, DecidableEq

/-- Payload of a call request event. -/
structure CallReqData where
  callId : Option String
  userId : Option String
  expertId : Option String
deriving Repr, DecidableEq

/-- EventHandler.handleCallRequest. Returns the new handler state, the
emissions, and the callback result. Mirrors events.js: field validation
with JavaScript truthiness and the userId fallback from the registration
map; backend availability and busy checks; the local busy check; then
either the reconnect-tolerant path (expert socket unresolved but backend
online: backend ringing update, a 15000 ms degraded timeout, no local
session) or the normal path (caller profile fetch with placeholder
fallback, createCall, backend ringing update with endCall rollback on
failure, two incoming-call emissions, busy broadcast, 60000 ms timeout). -/
def EventHandler.handleCallRequest (h : EventHandler) (b : Backend)
    (socketId : String) (data : CallReqData) (now : Nat) :
    EventHandler × List Emit × ReqResult :=
  let socketUser := mget h.rooms.socketToUser socketId
  let derivedUserId : Option String :=
    match socketUser with
    | some u => if u.userType == "user" then some u.userId else none
    | none => none
  let callIdOpt := data.callId
  let expertIdOpt := data.expertId
  let userIdOpt := jsStrOr data.userId derivedUserId
  if !jsTruthyStr callIdOpt || !jsTruthyStr userIdOpt || !jsTruthyStr expertIdOpt then
    (h, [], ReqResult.failure "Invalid call data")
  else
    let callId := callIdOpt.getD ""
    let userId := userIdOpt.getD ""
    let expertId := expertIdOpt.getD ""
    let dbStatus := b.expertStatus expertId
    let isExpertOnlineDb := match dbStatus with | some s => s.isOnline | none => false
    let isExpertBusyInDb := match dbStatus with | some s => s.isBusy | none => false
    let isExpertConnected := h.rooms.isExpertOnline expertId
    let isExpertAvailable := isExpertOnlineDb || isExpertConnected
    if !isExpertAvailable then
      (h, [], ReqResult.failure "Expert is currently offline. Please try again later.")
    else if isExpertBusyInDb then
      (h, [], ReqResult.failure "Expert is currently on another call. Please try again later.")
    else if h.rooms.isExpertBusy expertId then
      (h, [], ReqResult.failure "Expert is currently on another call. Please try again later.")
    else
      match h.rooms.getExpertSocket expertId with
      | none =>
          if !isExpertOnlineDb then
            (h, [], ReqResult.failure "Expert is currently unavailable. Please try again later.")
          else if b.ringingOk callId then
            ({ h with callTimeouts := mset h.callTimeouts callId 15000 }, [],
             ReqResult.success callId
               (some "Expert temporarily disconnected - call will connect when they return"))
          else
            (h, [], ReqResult.failure "Backend error")
      | some expertSocketId =>
          let callerInfo : CallerInfo :=
            match b.userProfile userId with
            | some info => info
            | none => { name := "Unknown Caller", avatar := none }
          let rooms1 := (h.rooms.createCall callId userId expertId socketId
              expertSocketId (some callerInfo) now).1
          if b.ringingOk callId then
            ({ rooms := rooms1, callTimeouts := mset h.callTimeouts callId 60000 },
             [ Emit.incomingCall expertSocketId callId userId expertId (some callerInfo),
               Emit.incomingCall expertId callId userId expertId (some callerInfo),
               Emit.busyChanged expertId true ],
             ReqResult.success callId none)
          else
            ({ rooms := (rooms1.endCall callId).1, callTimeouts := h.callTimeouts }, [],
             ReqResult.failure
               ((b.ringingErrMsg callId).getD "Failed to initiate call. Please try again."))

/-- EventHandler.handleAcceptCall: fails with a not-found error if the
call is absent; otherwise clears the pending timeout, sets the status to
accepted (no validation of the current status), and notifies the caller
socket. -/
def EventHandler.handleAcceptCall (h : EventHandler) (callId : String) (now : Nat) :
    EventHandler × List Emit × AckResult :=
  match h.rooms.getCall callId with
  | none => (h, [], AckResult.err "Call not found")
  | some call =>
      let timeouts1 := mdel h.callTimeouts callId
      let rooms1 := (h.rooms.updateCallStatus callId "accepted" now).1
      ({ rooms := rooms1, callTimeouts := timeouts1 },
       [Emit.callAccepted call.userSocketId callId call.userId call.expertId call.callerInfo],
       AckResult.ok)

/-- EventHandler.handleCallEnd: fails with a not-found error if the call
is absent; otherwise computes the duration, notifies both counterpart
sockets (each only when its id is truthy and differs from the calling
socket), removes the call, broadcasts expert no-longer-busy, re-reads the
expert backend status (on success adjusting onlineExperts and
broadcasting it), and clears the pending timeout. -/
def EventHandler.handleCallEnd (h : EventHandler) (b : Backend)
    (socketId callId : String) (now : Nat) : EventHandler × List Emit × EndResult :=
  match h.rooms.getCall callId with
  | none => (h, [], EndResult.failure "Call not found")
  | some call =>
      let duration := h.rooms.getCallDuration callId now
      let emitsUser :=
        if call.userSocketId != "" && call.userSocketId != socketId then
          [Emit.callEnded call.userSocketId callId duration none none] else []
      let emitsExpert :=
        if call.expertSocketId != "" && call.expertSocketId != socketId then
          [Emit.callEnded call.expertSocketId callId duration none none] else []
      let rooms1 := (h.rooms.endCall callId).1
      let busyEmit := [Emit.busyChanged call.expertId false]
      let stepped :=
        match b.expertStatus call.expertId with
        | some s =>
            if s.isOnline then
              ({ rooms1 with onlineExperts := setAdd rooms1.onlineExperts call.expertId },
               [Emit.statusChanged call.expertId true])
            else
              ({ rooms1 with onlineExperts :=
                   (rooms1.onlineExperts.filter (fun e => e != call.expertId)) },
               [Emit.statusChanged call.expertId false])
        | none => (rooms1, [])
      let timeouts1 := mdel h.callTimeouts callId
      ({ rooms := stepped.1, callTimeouts := timeouts1 },
       emitsUser ++ emitsExpert ++ busyEmit ++ stepped.2,
       EndResult.success duration)

/-- EventHandler.handleDisconnect. Returns the new handler state, the
emissions, and the list of callIds for which a backend force-end request
was issued (the result of that fire-and-forget request never affects
local state, so the oracle is not consulted). Mirrors events.js: first
removeSocket, then a loop over the remaining activeCalls looking for
calls referencing the closed socket; for each such call it notifies the
other party with the duration and a disconnect reason, broadcasts expert
no-longer-busy, issues the backend force-end, removes the call and clears
its timeout. -/
def EventHandler.handleDisconnect (h : EventHandler) (socketId : String)
    (now : Nat) : EventHandler × List Emit × List String :=
  let rooms1 := (h.rooms.removeSocket socketId).1
  rooms1.activeCalls.foldl
    (fun acc entry =>
      let st := acc.1
      let emits := acc.2.1
      let backendEnds := acc.2.2
      let callId := entry.1
      let call := entry.2
      if call.userSocketId == socketId || call.expertSocketId == socketId then
        let isUserDisconnect := call.userSocketId == socketId
        let otherSocketId := if isUserDisconnect then call.expertSocketId else call.userSocketId
        let notifyEmits :=
          if otherSocketId != "" then
            [Emit.callEnded otherSocketId callId (st.rooms.getCallDuration callId now)
              (some "Other party disconnected")
              (some (if isUserDisconnect then "user" else "expert"))]
          else []
        let busyEmits := if call.expertId != "" then [Emit.busyChanged call.expertId false] else []
        let rooms2 := (st.rooms.endCall callId).1
        let timeouts1 := mdel st.callTimeouts callId
        (({ rooms := rooms2, callTimeouts := timeouts1 } : EventHandler),
         emits ++ notifyEmits ++ busyEmits, backendEnds ++ [callId])
      else acc)
    (({ rooms := rooms1, callTimeouts := h.callTimeouts } : EventHandler), ([], []))

/-- Liveness watchdog body from socket.js: scans activeCalls; for each
connected call it takes the last user heartbeat (falling back to
startTime under JavaScript truthiness) and, when that value is more than
15000 ms before now, force-ends the call through handleCallEnd with the
system_autocut mock socket. The source also computes the expert-side
staleness value but never tests it, so it does not appear in the executed
behaviour modelled here. The comparison now - t > 15000 is on JavaScript
numbers; with truncated Nat subtraction a future t gives 0, and the
JavaScript negative value likewise fails the comparison. -/
def livenessScan (h : EventHandler) (b : Backend) (now : Nat) :
    EventHandler × List Emit :=
  h.rooms.activeCalls.foldl
    (fun acc entry =>
      let call := entry.2
      if call.status == "connected" then
        let lastUser := jsFallbackTime call.lastUserHeartbeat call.startTime
        let staleUser : Bool :=
          match lastUser with
          | some t => decide (now - t > 15000)
          | none => false
        if staleUser then
          let stepped := acc.1.handleCallEnd b "system_autocut" entry.1 now
          (stepped.1, acc.2 ++ stepped.2.1)
        else acc
      else acc)
    (h, [])

/-- Reading back the key just written by mset yields the new value. -/
theorem mget_mset_self {β : Type} (m : List (String × β)) (k : String) (v : β) :
    mget (mset m k v) k = some v := by
  induction m with
  | nil => simp [mset, mget]
  | cons p rest ih =>
      obtain ⟨k1, v1⟩ := p
      by_cases hp : k1 = k
      · simp [mset, mget, hp]
      · simp [mset, mget, hp, ih]

/-- Reading a key just deleted by mdel yields none. -/
theorem mget_mdel_self {β : Type} (m : List (String × β)) (k : String) :
    mget (mdel m k) k = none := by
  induction m with
  | nil => rfl
  | cons p rest ih =>
      obtain ⟨k1, v1⟩ := p
      by_cases hp : k1 = k
      · simpa [mdel, List.filter_cons, hp] using ih
      · simpa [mdel, mget, List.filter_cons, hp] using ih

/-- Predicate on ReqResult picking out the failure callbacks. -/
def ReqResult.isFailure : ReqResult → Bool
  | ReqResult.failure _ => true
  | _ => false

/-- A RoomManager with no registrations and no calls. -/
def emptyRm : RoomManager :=
  { userSockets := [], expertSockets := [], socketToUser := [],
    activeCalls := [], onlineExperts := [] }

/-- C10: every Store operation applied to a callId absent from the Store
is total and side-effect free — getCall, updateCallStatus and endCall
return an absent value, updateHeartbeat is a no-op, getCallDuration
returns 0, and the Store is unchanged. -/
theorem spec_C10 (rm : RoomManager) (callId status userId userType : String)
    (now : Nat) (h : rm.getCall callId = none) :
    rm.getCall callId = none ∧
    rm.updateCallStatus callId status now = (rm, none) ∧
    rm.updateHeartbeat callId userId userType now = rm ∧
    rm.endCall callId = (rm, none) ∧
    rm.getCallDuration callId now = 0 := by
  have hm : mget rm.activeCalls callId = none := h
  refine ⟨h, ?_, ?_, ?_, ?_⟩ <;>
    simp [RoomManager.updateCallStatus, RoomManager.updateHeartbeat,
      RoomManager.endCall, RoomManager.getCallDuration, hm]

/-- Witness for C10 at the empty Store and callId c1. -/
theorem spec_C10_witness :
    emptyRm.getCall "c1" = none ∧
    emptyRm.updateCallStatus "c1" "accepted" 5 = (emptyRm, none) ∧
    emptyRm.updateHeartbeat "c1" "u1" "user" 5 = emptyRm ∧
    emptyRm.endCall "c1" = (emptyRm, none) ∧
    emptyRm.getCallDuration "c1" 5 = 0 :=
  spec_C10 emptyRm "c1" "accepted" "u1" "user" 5 rfl

/-- A stored call in status connected, used as the pre-existing record in
several concrete states below. -/
def c3Orig : Call :=
  { callId := "c1", userId := "u1", expertId := "e1", userSocketId := "s1",
    expertSocketId := "s2", callerInfo := none, status := "connected",
    createdAt := 10, startTime := some 20, lastUserHeartbeat := none,
    lastExpertHeartbeat := none }

/-- A Store holding only c3Orig under callId c1. -/
def c3Rm : RoomManager :=
  { userSockets := [], expertSockets := [], socketToUser := [],
    activeCalls := [("c1", c3Orig)], onlineExperts := [] }

/-- Record produced by createCall: status ringing, createdAt = now, every
later-assigned field unset. -/
def freshCall (callId userId expertId userSocketId expertSocketId : String)
    (ci : Option CallerInfo) (now : Nat) : Call :=
  { callId := callId, userId := userId, expertId := expertId,
    userSocketId := userSocketId, expertSocketId := expertSocketId,
    callerInfo := ci, status := "ringing", createdAt := now,
    startTime := none, lastUserHeartbeat := none, lastExpertHeartbeat := none }

/-- C3 counterexample: creating a call under an already-present callId
does not fail with Conflict and does not leave the stored record
untouched — createCall overwrites it with a fresh ringing record. -/
theorem spec_C3_counterexample :
    ((c3Rm.createCall "c1" "u2" "e1" "s3" "s2" none 99).1.getCall "c1").map Call.status
      = some "ringing" ∧
    (c3Rm.createCall "c1" "u2" "e1" "s3" "s2" none 99).1.getCall "c1" ≠ some c3Orig := by
  decide

/-- C3 as amended: createCall never fails; for any prior Store contents it
stores (overwriting any record under the same callId) and returns a fresh
record with status ringing, createdAt = now and unset startTime. -/
theorem spec_C3_amended (rm : RoomManager)
    (callId userId expertId userSocketId expertSocketId : String)
    (ci : Option CallerInfo) (now : Nat) :
    (rm.createCall callId userId expertId userSocketId expertSocketId ci now).1.getCall callId
      = some (freshCall callId userId expertId userSocketId expertSocketId ci now) ∧
    (rm.createCall callId userId expertId userSocketId expertSocketId ci now).2
      = freshCall callId userId expertId userSocketId expertSocketId ci now := by
  constructor
  · simp [RoomManager.createCall, RoomManager.getCall, freshCall, mget_mset_self]
  · rfl

/-- A stored connected call used for the C2 fixtures. -/
def c2Call : Call :=
  { callId := "c1", userId := "u1", expertId := "e1", userSocketId := "s1",
    expertSocketId := "s2", callerInfo := none, status := "connected",
    createdAt := 10, startTime := some 30, lastUserHeartbeat := none,
    lastExpertHeartbeat := none }

/-- A Store holding only c2Call under callId c1. -/
def c2Rm : RoomManager :=
  { userSockets := [], expertSockets := [], socketToUser := [],
    activeCalls := [("c1", c2Call)], onlineExperts := [] }

/-- C2 counterexample: a transition from connected back to accepted does
not fail and does not leave the status unchanged — updateCallStatus
applies it and returns the updated record. -/
theorem spec_C2_counterexample :
    ((c2Rm.updateCallStatus "c1" "accepted" 99).2).map Call.status = some "accepted" ∧
    ((c2Rm.updateCallStatus "c1" "accepted" 99).1.getCall "c1").map Call.status
      = some "accepted" := by
  decide

/-- C2 as amended: updateCallStatus performs no validation — on a present
callId it sets the status to the requested value unconditionally (any
transition, including reverse ones, succeeds), setting startTime = now
exactly when entering connected with startTime unset; on an absent callId
it returns none and leaves the Store unchanged. handleAcceptCall likewise
accepts any existing session regardless of its current status. -/
theorem spec_C2_amended (rm : RoomManager) (callId status : String) (now : Nat) :
    (∀ call, rm.getCall callId = some call →
        ((rm.updateCallStatus callId status now).2).map Call.status = some status ∧
        (((rm.updateCallStatus callId status now).1).getCall callId).map Call.status
          = some status ∧
        ((rm.updateCallStatus callId status now).2).map Call.startTime
          = some (if status == "connected" && !jsTruthyTime call.startTime
                  then some now else call.startTime)) ∧
    (rm.getCall callId = none → rm.updateCallStatus callId status now = (rm, none)) ∧
    (∀ (h : EventHandler) call, h.rooms.getCall callId = some call →
        (h.handleAcceptCall callId now).2.2 = AckResult.ok) := by
  refine ⟨?_, ?_, ?_⟩
  · intro call hc
    have hm : mget rm.activeCalls callId = some call := hc
    refine ⟨?_, ?_, ?_⟩ <;>
      · simp only [RoomManager.updateCallStatus, RoomManager.getCall, hm]
        split <;> simp [mget_mset_self]
  · intro hc
    have hm : mget rm.activeCalls callId = none := hc
    simp [RoomManager.updateCallStatus, hm]
  · intro h call hc
    simp [EventHandler.handleAcceptCall, hc]

/-- Witness for C2 at the concrete connected call c2Call. -/
theorem spec_C2_witness :
    ((c2Rm.updateCallStatus "c1" "ended" 99).2).map Call.status = some "ended" :=
  ((spec_C2_amended c2Rm "c1" "ended" 99).1 c2Call rfl).1

/-- A call whose caller-side socket s1 is not registered in socketToUser,
used for the C9 counterexample. -/
def c9Rm : RoomManager :=
  { userSockets := [], expertSockets := [], socketToUser := [],
    activeCalls := [("c1", c3Orig)], onlineExperts := [] }

/-- C9 counterexample: for a socket with no socketToUser entry,
removeSocket does nothing — a session referencing the removed socket on
the caller side is still in the Store afterwards. -/
theorem spec_C9_counterexample :
    ((c9Rm.removeSocket "s1").1.getCall "c1").map Call.userSocketId = some "s1" ∧
    (c9Rm.removeSocket "s1").2 = none := by
  decide

/-- C9 as amended: only for a socket registered in socketToUser does
removeSocket delete the socketToUser binding, the role-appropriate
identity binding, and every session referencing the socket on either
side, returning the registration data; the operation emits nothing by
construction. (For an unregistered socket it is a no-op returning absent,
and referencing sessions remain.) -/
theorem spec_C9_amended (rm : RoomManager) (socketId : String) (ud : SocketUser)
    (hreg : mget rm.socketToUser socketId = some ud) :
    (rm.removeSocket socketId).2 = some ud ∧
    mget (rm.removeSocket socketId).1.socketToUser socketId = none ∧
    (ud.userType = "user" →
        mget (rm.removeSocket socketId).1.userSockets ud.userId = none) ∧
    (ud.userType = "expert" →
        mget (rm.removeSocket socketId).1.expertSockets ud.userId = none) ∧
    (∀ p ∈ (rm.removeSocket socketId).1.activeCalls,
        p.2.userSocketId ≠ socketId ∧ p.2.expertSocketId ≠ socketId) := by
  refine ⟨?_, ?_, ?_, ?_, ?_⟩
  · simp [RoomManager.removeSocket, hreg]
  · simp only [RoomManager.removeSocket, hreg]
    split <;> simp [mget_mdel_self]
  · intro ht
    simp [RoomManager.removeSocket, hreg, ht, mget_mdel_self]
  · intro ht
    simp [RoomManager.removeSocket, hreg, ht, mget_mdel_self]
  · intro p hp
    simp only [RoomManager.removeSocket, hreg] at hp
    have hp2 : p ∈ (if ud.userType == "user" then
        { rm with userSockets := mdel rm.userSockets ud.userId }
      else if ud.userType == "expert" then
        { rm with expertSockets := mdel rm.expertSockets ud.userId }
      else rm).activeCalls.filter
        (fun q => !(q.2.userSocketId == socketId || q.2.expertSocketId == socketId)) := by
      revert hp
      split <;> · intro hp; simpa using hp
    have hfp := (List.mem_filter.mp hp2).2
    constructor
    · intro hcontra
      simp [hcontra] at hfp
    · intro hcontra
      simp [hcontra] at hfp

/-- Registered-socket state for the C9 witness: socket s1 belongs to user
u1 and the only session references it on the caller side. -/
def c9RegRm : RoomManager :=
  { userSockets := [("u1", "s1")], expertSockets := [],
    socketToUser := [("s1", { userId := "u1", userType := "user" })],
    activeCalls := [("c1", c3Orig)], onlineExperts := [] }

/-- Witness for C9 at the registered socket s1. -/
theorem spec_C9_witness :
    (c9RegRm.removeSocket "s1").2 = some { userId := "u1", userType := "user" } ∧
    mget (c9RegRm.removeSocket "s1").1.socketToUser "s1" = none ∧
    mget (c9RegRm.removeSocket "s1").1.userSockets "u1" = none :=
  ⟨(spec_C9_amended c9RegRm "s1" { userId := "u1", userType := "user" } rfl).1,
   (spec_C9_amended c9RegRm "s1" { userId := "u1", userType := "user" } rfl).2.1,
   (spec_C9_amended c9RegRm "s1" { userId := "u1", userType := "user" } rfl).2.2.1 rfl⟩

/-- Backend oracle on which every request succeeds and reports the expert
online and not busy. -/
def okBackend : Backend :=
  { expertStatus := fun _ => some { isOnline := true, isBusy := false },
    userProfile := fun _ => some { name := "Alice", avatar := none },
    ringingOk := fun _ => true,
    ringingErrMsg := fun _ => none,
    forceEndOk := fun _ => true }

/-- C6: when a session is ended at time now, the duration reported by
handleCallEnd is (now - startTime) / 1000 (floor division) if the session
reached connected (startTime set, hence a positive past clock value), and
0 if connected was never reached (startTime unset). -/
theorem spec_C6 (h : EventHandler) (b : Backend) (socketId callId : String)
    (now : Nat) (call : Call) (hc : h.rooms.getCall callId = some call) :
    (∀ s, call.startTime = some s → 0 < s → s ≤ now →
        (h.handleCallEnd b socketId callId now).2.2
          = EndResult.success ((now - s) / 1000)) ∧
    (call.startTime = none →
        (h.handleCallEnd b socketId callId now).2.2 = EndResult.success 0) := by
  have hm : mget h.rooms.activeCalls callId = some call := hc
  constructor
  · intro s hs hpos _
    have hne : s ≠ 0 := Nat.pos_iff_ne_zero.mp hpos
    simp [EventHandler.handleCallEnd, hc, RoomManager.getCallDuration, hm, hs,
      jsTruthyTime, hne]
  · intro hs
    simp [EventHandler.handleCallEnd, hc, RoomManager.getCallDuration, hm, hs,
      jsTruthyTime]

/-- Handler state holding one connected session c1 with startTime 2000,
both sides registered. -/
def c6State : EventHandler :=
  { rooms :=
      { userSockets := [("u1", "su")], expertSockets := [("e1", "se")],
        socketToUser := [("su", { userId := "u1", userType := "user" }),
                         ("se", { userId := "e1", userType := "expert" })],
        activeCalls := [("c1", c2Call)], onlineExperts := ["e1"] },
    callTimeouts := [] }

/-- Witness for C6: ending c2Call (startTime 30) at now = 5030 reports a
duration of 5 seconds, since (5030 - 30) / 1000 = 5. -/
theorem spec_C6_witness :
    (c6State.handleCallEnd okBackend "su" "c1" 5030).2.2 = EndResult.success 5 :=
  (spec_C6 c6State okBackend "su" "c1" 5030 c2Call rfl).1 30 rfl (by decide) (by decide)

/-- When the callId is absent, handleCallEnd returns the not-found
failure and changes nothing. -/
theorem handleCallEnd_absent (st : EventHandler) (b : Backend)
    (socketId callId : String) (now : Nat)
    (h0 : st.rooms.getCall callId = none) :
    st.handleCallEnd b socketId callId now
      = (st, [], EndResult.failure "Call not found") := by
  simp [EventHandler.handleCallEnd, h0]

/-- C8: ending a session twice — the Store end operation removes and
returns the record, after handleCallEnd the session is absent, and a
second handleCallEnd for the same callId returns the not-found failure,
changes nothing, and emits no notification or broadcast at all. -/
theorem spec_C8 (h : EventHandler) (b : Backend) (socketId callId : String)
    (now : Nat) (call : Call) (hc : h.rooms.getCall callId = some call) :
    (h.rooms.endCall callId).2 = some call ∧
    (h.handleCallEnd b socketId callId now).1.rooms.getCall callId = none ∧
    (∀ (b2 : Backend) (socketId2 : String) (now2 : Nat),
        (h.handleCallEnd b socketId callId now).1.handleCallEnd b2 socketId2 callId now2
          = ((h.handleCallEnd b socketId callId now).1, [],
             EndResult.failure "Call not found")) := by
  have hm : mget h.rooms.activeCalls callId = some call := hc
  have habsent : (h.handleCallEnd b socketId callId now).1.rooms.getCall callId = none := by
    simp only [EventHandler.handleCallEnd, hc]
    cases hb : b.expertStatus call.expertId with
    | none => simp [RoomManager.getCall, RoomManager.endCall, hm, hb, mget_mdel_self]
    | some s =>
        cases hon : s.isOnline <;>
          simp [RoomManager.getCall, RoomManager.endCall, hm, hb, hon, mget_mdel_self]
  refine ⟨?_, habsent, ?_⟩
  · simp [RoomManager.endCall, hm]
  · intro b2 socketId2 now2
    exact handleCallEnd_absent _ b2 socketId2 callId now2 habsent

/-- Witness for C8 at the concrete connected call c2Call. -/
theorem spec_C8_witness :
    (c6State.rooms.endCall "c1").2 = some c2Call ∧
    (c6State.handleCallEnd okBackend "su" "c1" 5030).1.rooms.getCall "c1" = none ∧
    (c6State.handleCallEnd okBackend "su" "c1" 5030).1.handleCallEnd okBackend "se" "c1" 6000
      = ((c6State.handleCallEnd okBackend "su" "c1" 5030).1, [],
         EndResult.failure "Call not found") :=
  ⟨(spec_C8 c6State okBackend "su" "c1" 5030 c2Call rfl).1,
   (spec_C8 c6State okBackend "su" "c1" 5030 c2Call rfl).2.1,
   (spec_C8 c6State okBackend "su" "c1" 5030 c2Call rfl).2.2 okBackend "se" 6000⟩

/-- Connected session referencing registered caller socket su and expert
socket se, used for the C1 disconnect evaluation. -/
def c1Call : Call :=
  { callId := "c1", userId := "u1", expertId := "e1", userSocketId := "su",
    expertSocketId := "se", callerInfo := none, status := "connected",
    createdAt := 1000, startTime := some 2000, lastUserHeartbeat := none,
    lastExpertHeartbeat := none }

/-- Handler state in which caller socket su is registered in socketToUser
and the connected session c1 references it. -/
def c1State : EventHandler :=
  { rooms :=
      { userSockets := [("u1", "su")], expertSockets := [("e1", "se")],
        socketToUser := [("su", { userId := "u1", userType := "user" }),
                         ("se", { userId := "e1", userType := "expert" })],
        activeCalls := [("c1", c1Call)], onlineExperts := ["e1"] },
    callTimeouts := [("c1", 60000)] }

/-- C1 evaluated at the failing input: the registered caller socket su
closes while the connected session c1 references it. handleDisconnect
first runs removeSocket, which already deletes every session referencing
the closed socket, so the notification loop that follows finds nothing:
no call-ended notification reaches the counterpart socket se, no
expert-busy-changed broadcast is emitted, and no backend force-end
request is issued — the session is simply gone. -/
theorem spec_C1_code_evaluation :
    (c1State.handleDisconnect "su" 50000).2.1 = [] ∧
    (c1State.handleDisconnect "su" 50000).2.2 = [] ∧
    (c1State.handleDisconnect "su" 50000).1.rooms.getCall "c1" = none := by
  decide

/-- Connected session whose expert-side heartbeat is long stale while the
user-side heartbeat is fresh, for the C5 watchdog evaluation. -/
def c5Call : Call :=
  { callId := "c1", userId := "u1", expertId := "e1", userSocketId := "su",
    expertSocketId := "se", callerInfo := none, status := "connected",
    createdAt := 500, startTime := some 1000, lastUserHeartbeat := some 99000,
    lastExpertHeartbeat := some 1000 }

/-- Handler state holding only c5Call. -/
def c5State : EventHandler :=
  { rooms :=
      { userSockets := [("u1", "su")], expertSockets := [("e1", "se")],
        socketToUser := [("su", { userId := "u1", userType := "user" }),
                         ("se", { userId := "e1", userType := "expert" })],
        activeCalls := [("c1", c5Call)], onlineExperts := ["e1"] },
    callTimeouts := [] }

/-- C5 evaluated at the failing input: at now = 100000 the expert side of
c5Call is 99000 ms stale (far beyond the 15000 ms threshold, by the same
heartbeat-or-startTime fallback measure the watchdog uses for the user
side) while the user side is only 1000 ms stale, yet the liveness scan
leaves the state untouched and emits nothing — the source computes the
expert-side staleness but never tests it, so expert-side silence alone
never force-ends a session. -/
theorem spec_C5_code_evaluation :
    100000 - (jsFallbackTime c5Call.lastExpertHeartbeat c5Call.startTime).getD 0 > 15000 ∧
    livenessScan c5State okBackend 100000 = (c5State, []) := by
  constructor
  · decide
  · rfl

/-- Handler state with caller socket su registered and no expert socket
for e1, used for the C4 reconnect-tolerant path. -/
def c4State : EventHandler :=
  { rooms :=
      { userSockets := [("u1", "su")], expertSockets := [],
        socketToUser := [("su", { userId := "u1", userType := "user" })],
        activeCalls := [], onlineExperts := [] },
    callTimeouts := [] }

/-- C4 counterexample: on the reconnect-tolerant path (expert socket
unresolved, backend reports online) the request succeeds and the
degraded 15000 ms timeout is armed, but no session is created in the
Store — getCall on the resulting state is absent. -/
theorem spec_C4_counterexample :
    (c4State.handleCallRequest okBackend "su" ⟨some "c1", some "u1", some "e1"⟩ 10).2.2
      = ReqResult.success "c1"
          (some "Expert temporarily disconnected - call will connect when they return") ∧
    (c4State.handleCallRequest okBackend "su" ⟨some "c1", some "u1", some "e1"⟩ 10).1.rooms.getCall "c1"
      = none ∧
    mget (c4State.handleCallRequest okBackend "su" ⟨some "c1", some "u1", some "e1"⟩ 10).1.callTimeouts "c1"
      = some 15000 := by
  decide

/-- C4 as amended: when the expert connection cannot be resolved but the
backend reports the expert online and not busy, no local session marks
the expert busy, and the backend ringing update succeeds, the request is
not rejected — it succeeds with a reconnect note and the degraded
15000 ms ring timeout (shorter than the normal 60000 ms) is armed for
the callId, while the Store is left unchanged: no session is created. -/
theorem spec_C4_amended (h : EventHandler) (b : Backend) (socketId cid uid eid : String)
    (now : Nat) (hcid : cid ≠ "") (huid : uid ≠ "") (heid : eid ≠ "")
    (hdb : b.expertStatus eid = some { isOnline := true, isBusy := false })
    (hsock : h.rooms.getExpertSocket eid = none)
    (hbusy : h.rooms.isExpertBusy eid = false)
    (hring : b.ringingOk cid = true) :
    h.handleCallRequest b socketId ⟨some cid, some uid, some eid⟩ now
      = ({ h with callTimeouts := mset h.callTimeouts cid 15000 }, [],
         ReqResult.success cid
           (some "Expert temporarily disconnected - call will connect when they return")) := by
  have hmget : mget h.rooms.expertSockets eid = none := hsock
  simp [EventHandler.handleCallRequest, jsTruthyStr, jsStrOr, hcid, huid, heid,
    hdb, hbusy, hring, hsock, RoomManager.isExpertOnline, hmget]

/-- Witness for C4 at the concrete state c4State with okBackend. -/
theorem spec_C4_witness :
    c4State.handleCallRequest okBackend "su" ⟨some "c1", some "u1", some "e1"⟩ 10
      = ({ c4State with callTimeouts := mset c4State.callTimeouts "c1" 15000 }, [],
         ReqResult.success "c1"
           (some "Expert temporarily disconnected - call will connect when they return")) :=
  spec_C4_amended c4State okBackend "su" "c1" "u1" "e1" 10
    (by decide) (by decide) (by decide) rfl rfl rfl rfl

/-- Handler state with caller socket su registered and expert e1 holding
a live registered socket se, for the C7 fixtures. -/
def c7State : EventHandler :=
  { rooms :=
      { userSockets := [("u1", "su")], expertSockets := [("e1", "se")],
        socketToUser := [("su", { userId := "u1", userType := "user" }),
                         ("se", { userId := "e1", userType := "expert" })],
        activeCalls := [], onlineExperts := ["e1"] },
    callTimeouts := [] }

/-- Backend oracle reporting the expert offline and not busy while every
other request succeeds. -/
def offlineBackend : Backend :=
  { expertStatus := fun _ => some { isOnline := false, isBusy := false },
    userProfile := fun _ => some { name := "Alice", avatar := none },
    ringingOk := fun _ => true,
    ringingErrMsg := fun _ => none,
    forceEndOk := fun _ => true }

/-- Backend oracle reporting the expert online and busy. -/
def busyBackend : Backend :=
  { expertStatus := fun _ => some { isOnline := true, isBusy := true },
    userProfile := fun _ => some { name := "Alice", avatar := none },
    ringingOk := fun _ => true,
    ringingErrMsg := fun _ => none,
    forceEndOk := fun _ => true }

/-- C7 counterexample: when the backend reports the expert unavailable
(offline, not busy) but the expert holds a live registered connection,
the request does not fail — it succeeds, a session is created in the
Store, and incoming-call and busy-changed notifications are emitted. -/
theorem spec_C7_counterexample :
    (c7State.handleCallRequest offlineBackend "su" ⟨some "c1", some "u1", some "e1"⟩ 10).2.2
      = ReqResult.success "c1" none ∧
    ((c7State.handleCallRequest offlineBackend "su" ⟨some "c1", some "u1", some "e1"⟩ 10).1.rooms.getCall "c1").isSome
      = true ∧
    (c7State.handleCallRequest offlineBackend "su" ⟨some "c1", some "u1", some "e1"⟩ 10).2.1
      ≠ [] := by
  decide

/-- C7 as amended: a call request targeting an expert the backend reports
busy always fails with a declined-reason callback, creates no session and
emits nothing; a backend report of unavailable causes the same immediate
failure only when the expert additionally has no live registered
connection — with a live connection, a backend-offline report does not by
itself fail the request. -/
theorem spec_C7_amended (h : EventHandler) (b : Backend) (socketId cid uid eid : String)
    (now : Nat) (hcid : cid ≠ "") (huid : uid ≠ "") (heid : eid ≠ "") :
    (∀ es, b.expertStatus eid = some es → es.isBusy = true →
        (h.handleCallRequest b socketId ⟨some cid, some uid, some eid⟩ now).1 = h ∧
        (h.handleCallRequest b socketId ⟨some cid, some uid, some eid⟩ now).2.1 = [] ∧
        ((h.handleCallRequest b socketId ⟨some cid, some uid, some eid⟩ now).2.2).isFailure
          = true) ∧
    ((∀ es, b.expertStatus eid = some es → es.isOnline = false) →
        h.rooms.isExpertOnline eid = false →
        h.handleCallRequest b socketId ⟨some cid, some uid, some eid⟩ now
          = (h, [], ReqResult.failure "Expert is currently offline. Please try again later.")) := by
  constructor
  · intro es hes hbusy
    cases havail : es.isOnline || h.rooms.isExpertOnline eid <;>
      simp [EventHandler.handleCallRequest, jsTruthyStr, jsStrOr, hcid, huid, heid,
        hes, hbusy, havail, ReqResult.isFailure]
  · intro hoffAll hconn
    cases hdb : b.expertStatus eid with
    | none =>
        simp [EventHandler.handleCallRequest, jsTruthyStr, jsStrOr, hcid, huid, heid,
          hdb, hconn]
    | some es =>
        have hoff : es.isOnline = false := hoffAll es hdb
        simp [EventHandler.handleCallRequest, jsTruthyStr, jsStrOr, hcid, huid, heid,
          hdb, hoff, hconn]

/-- Witness for C7: the busy report declines the request at c7State with
no state change and no emission. -/
theorem spec_C7_witness :
    (c7State.handleCallRequest busyBackend "su" ⟨some "c1", some "u1", some "e1"⟩ 10).1
      = c7State ∧
    (c7State.handleCallRequest busyBackend "su" ⟨some "c1", some "u1", some "e1"⟩ 10).2.1
      = [] ∧
    ((c7State.handleCallRequest busyBackend "su" ⟨some "c1", some "u1", some "e1"⟩ 10).2.2).isFailure
      = true :=
  (spec_C7_amended c7State busyBackend "su" "c1" "u1" "e1" 10
    (by decide) (by decide) (by decide)).1 { isOnline := true, isBusy := true } rfl rfl

end ConsultOnCall
